import Mathlib

/-!
Shallow embedding of the remote generation job orchestrator of
src/middleware/suno_client.py (functions _slugify, _create_suno_task,
_poll_suno_task, _download_audio, generate_music_from_prompt_en).

Modelling conventions:
  * Python str values are Lean String; an optional JSON field is Option.
  * Python truthiness of an optional string (if not x) is pyTruthy.
  * requests calls are modelled by the environment handing the function a
    value of a response type; a connection-level exception from the
    requests library is a dedicated constructor.
  * resp.raise_for_status raises exactly when 400 <= status < 600.
  * Exceptions are Except values: PyError.sunoError m models raising
    SunoClientError with message contents m (the SunoMsg constructor
    records precisely the values interpolated into the f-string of the
    raise site); PyError.requestsLib models an uncaught exception of the
    requests library propagating out.
  * Wall time is a ghost Nat clock (whole seconds): each HTTP round trip
    contributes its rtt, each time.sleep(interval) contributes interval.
-/

namespace SunoClient

/-- Truthiness of an optional Python string: None and the empty string are
falsy, every other string is truthy. -/
def pyTruthy : Option String → Bool
  | some s => !(s = "")
  | none => false

/-! ## _slugify (suno_client.py lines 46-53)

Python re with a str pattern reads \w over the full Unicode
word-character tables (CJK ideographs and accented letters included),
and str.strip likewise strips Unicode whitespace.  The embedding does
not reproduce those tables: the word-character and whitespace
classifiers are parameters of the slug functions, and the slug theorems
hold for every word-character classifier that contains the ASCII word
characters, as the Unicode \w class does.  A concrete ASCII
instantiation is used only where the facade model needs one executable
filename. -/

/-- Characters kept by the regex [^\w\-]+ of _slugify: word characters
per the classifier w, plus the hyphen. -/
def keepChar (w : Char → Bool) (c : Char) : Bool := w c || c = '-'

/-- re.sub(r"[^\w\-]+", "_", text): replace each maximal run of
non-kept characters by a single underscore.  The Bool flag records whether
the previous character was part of such a run. -/
def collapseAux (keep : Char → Bool) : Bool → List Char → List Char
  | _, [] => []
  | inRun, c :: cs =>
    if keep c then c :: collapseAux keep false cs
    else if inRun then collapseAux keep true cs
    else '_' :: collapseAux keep true cs

/-- Python str.strip with character predicate p: drop the maximal prefix
and the maximal suffix whose characters satisfy p. -/
def pyStripChars (p : Char → Bool) (l : List Char) : List Char :=
  ((l.dropWhile p).reverse.dropWhile p).reverse

/-- _slugify over a word-character classifier w and a whitespace
classifier isSpace: strip whitespace; empty -> "hakimi_track"; collapse
runs of characters outside \w and the hyphen to single underscores;
strip underscores; empty -> "hakimi_track". -/
def slugifyW (w isSpace : Char → Bool) (title : String) : String :=
  let t := pyStripChars isSpace title.toList
  if t = [] then "hakimi_track"
  else
    let slug := pyStripChars (fun c => c = '_') (collapseAux (keepChar w) false t)
    if slug = [] then "hakimi_track" else String.mk slug

/-- The ASCII part of the \w word characters (a subset of the Unicode
class Python uses). -/
def asciiWordChar (c : Char) : Bool := c.isAlphanum || c = '_'

/-- Concrete slug used inside the facade model: _slugify with the
classifiers instantiated to the ASCII word characters and the ASCII
whitespace; it agrees with the source on ASCII titles, and the
parametric theorems cover every larger classifier. -/
def slugify (title : String) : String :=
  slugifyW asciiWordChar Char.isWhitespace title

/-- filename = f"{safe_title}.mp3" (lines 249-250), parametric in the
classifiers. -/
def audioFilenameW (w isSpace : Char → Bool) (title : String) : String :=
  slugifyW w isSpace title ++ ".mp3"

/-- filename = f"{safe_title}.mp3" (lines 249-250) with the concrete
slug, as used in the facade model. -/
def audioFilename (title : String) : String := slugify title ++ ".mp3"

/-- filename.rsplit(".", 1)[0] (line 191): everything before the last dot,
or the whole string when there is no dot. -/
def rsplitDotHead (l : List Char) : List Char :=
  match l.reverse.dropWhile (fun c => c ≠ '.') with
  | [] => l
  | _ :: rest => rest.reverse

/-- cover_filename = filename.rsplit(".", 1)[0] + "_cover.jpg" (line 191). -/
def coverFilenameOf (filename : String) : String :=
  String.mk (rsplitDotHead filename.toList) ++ "_cover.jpg"

/-! ## Data model of the remote responses -/

/-- A Clip record as read from the task-status JSON body: every field is
read with dict.get, hence optional.  title, tags, duration, clip_id are
only passed through, so they are modelled as optional strings. -/
structure Clip where
  state : Option String
  audio_url : Option String
  image_url : Option String
  title : Option String
  tags : Option String
  duration : Option String
  clip_id : Option String
deriving DecidableEq, Repr

/-- Parsed JSON body of a 200 status response: top-level code and data
fields, both read with dict.get. -/
structure TaskJson where
  code : Option Int
  data : Option (List Clip)
deriving DecidableEq, Repr

/-- Parsed JSON body of the create response; message and task_id read via
dict.get / key membership. -/
structure CreateBody where
  message : Option String
  task_id : Option String
deriving DecidableEq, Repr

/-- One answer of the environment to one requests.get of the polling loop
(lines 124-129): either the requests library raised a connection-level
RequestException, or an HTTP response arrived with a status code, a raw
text and, when the body parses as JSON, its parsed form (none = resp.json()
raises).  rtt is the wall-clock duration of the round trip in seconds. -/
inductive PollResponse where
  | transportError (rtt : Nat)
  | http (status : Nat) (text : String) (body : Option TaskJson) (rtt : Nat)
deriving DecidableEq, Repr

/-- Contents of the message of each SunoClientError raise site: exactly
the values interpolated into the f-string there.
  noApiKey       - _ensure_api_key, lines 40-43
  createFailed   - line 94, carries the parsed body dict
  pollTimeout    - line 119, carries max_wait and task_id (and only those)
  pollHttpError  - line 139, carries status code and resp.text
  pollNonJson    - line 144, carries resp.text
  jobFailed      - line 157, carries the clip dict
  noAudioUrl     - line 174, carries the clip dict -/
inductive SunoMsg where
  | noApiKey
  | createFailed (body : CreateBody)
  | pollTimeout (maxWait : Nat) (taskId : String)
  | pollHttpError (status : Nat) (body : String)
  | pollNonJson (text : String)
  | jobFailed (clip : Clip)
  | noAudioUrl (clip : Clip)
deriving DecidableEq, Repr

/-- An exception escaping an orchestrator function: either a
SunoClientError with message m, or an uncaught exception of the requests
library (connection errors, raise_for_status HTTPError, JSON decode
errors at uncaught sites). -/
inductive PyError where
  | sunoError (msg : SunoMsg)
  | requestsLib
deriving DecidableEq, Repr

/-! ## _create_suno_task (lines 58-98) -/

/-- Environment answer to the requests.post of submission (line 88). -/
inductive CreateResp where
  | transportError
  | response (status : Nat) (text : String) (body : Option CreateBody)
deriving DecidableEq, Repr

/-- The JSON payload built at lines 74-83: exactly the four keys
custom_mode, gpt_description_prompt, make_instrumental, mv. -/
structure CreatePayload where
  custom_mode : Bool
  gpt_description_prompt : String
  make_instrumental : Bool
  mv : String
deriving DecidableEq, Repr

/-- The outbound HTTP request of submission: url, headers, JSON payload. -/
structure CreateRequest where
  url : String
  headers : List (String × String)
  payload : CreatePayload
deriving DecidableEq, Repr

/-- Default tags list of line 66. -/
def defaultTags : List String := ["electronic", "meme", "fast", "cute"]

/-- Request construction of _create_suno_task, lines 58-86: the tags
default is computed (lines 65-66) but tags never enters url, headers or
payload (the payload line for tags is commented out in the source), and
title is not used at all. -/
def buildCreateRequest (apiKey baseUrl musicPromptEn _title : String)
    (tags : Option (List String)) (makeInstrumental : Bool) : CreateRequest :=
  let _tags := tags.getD defaultTags
  { url := baseUrl ++ "/api/v1/suno/create"
    headers := [("Authorization", "Bearer " ++ apiKey),
                ("Content-Type", "application/json")]
    payload := { custom_mode := false
                 gpt_description_prompt := musicPromptEn
                 make_instrumental := makeInstrumental
                 mv := "chirp-v4" } }

/-- Response handling of _create_suno_task, lines 63 and 88-98:
_ensure_api_key; requests.post may raise (uncaught); raise_for_status;
resp.json() may raise (uncaught); body validation; return task_id. -/
def createTaskResult (apiKey : String) (r : CreateResp) : Except PyError String :=
  if apiKey = "" then .error (.sunoError .noApiKey)
  else
    match r with
    | .transportError => .error .requestsLib
    | .response status _txt body =>
      if 400 ≤ status ∧ status < 600 then .error .requestsLib
      else
        match body with
        | none => .error .requestsLib
        | some d =>
          match d.task_id with
          | none => .error (.sunoError (.createFailed d))
          | some tid =>
            if d.message = some "success" then .ok tid
            else .error (.sunoError (.createFailed d))

/-! ## _poll_suno_task (lines 101-163) -/

/-- Outcome of the polling loop on a finite trace of environment answers:
ok c e      - return clip c, with ghost elapsed clock e at the return;
fatal m e   - raise SunoClientError with message m, elapsed e at the raise;
outOfTrace  - the trace was exhausted while the loop would keep polling. -/
inductive PollResult where
  | ok (c : Clip) (elapsed : Nat)
  | fatal (m : SunoMsg) (elapsed : Nat)
  | outOfTrace
deriving DecidableEq, Repr

/-- The while-True loop of _poll_suno_task, lines 116-163, run against a
finite trace of responses, t being the elapsed ghost clock at the top of
the iteration.  The deadline check (line 118, strict elapsed > max_wait)
comes before the status query; a transport error is swallowed and
retried after sleeping interval (lines 124-129); 202 keeps polling
(133-136); any other non-200 status is fatal (138-139); a 200 body that
does not parse is fatal (141-144); a parsed body with code = 200 and a
truthy (non-empty) data list is decided by the state of data[0]
(150-159); anything else keeps polling (160-163). -/
def pollLoop (taskId : String) (maxWait interval : Nat) :
    List PollResponse → Nat → PollResult
  | trace, t =>
    if t > maxWait then .fatal (.pollTimeout maxWait taskId) t
    else
      match trace with
      | [] => .outOfTrace
      | .transportError rtt :: rest =>
        pollLoop taskId maxWait interval rest (t + rtt + interval)
      | .http status text body rtt :: rest =>
        if status = 202 then pollLoop taskId maxWait interval rest (t + rtt + interval)
        else if status ≠ 200 then .fatal (.pollHttpError status text) (t + rtt)
        else
          match body with
          | none => .fatal (.pollNonJson text) (t + rtt)
          | some j =>
            match j.code, j.data with
            | some 200, some (clip :: _) =>
              if clip.state = some "succeeded" then .ok clip (t + rtt)
              else if clip.state = some "failed" then .fatal (.jobFailed clip) (t + rtt)
              else pollLoop taskId maxWait interval rest (t + rtt + interval)
            | _, _ => pollLoop taskId maxWait interval rest (t + rtt + interval)

/-! ## _download_audio (lines 166-223) -/

/-- Environment answer to one requests.get of a download URL. -/
inductive Fetch where
  | transportError
  | response (status : Nat) (content : String)
deriving DecidableEq, Repr

/-- The dict returned by _download_audio (lines 206-213) and by
generate_music_from_prompt_en. -/
structure GenResult where
  audio_path : String
  cover_path : Option String
  title : Option String
  tags : Option String
  duration : Option String
  clip_id : Option String
deriving DecidableEq, Repr

/-- OUTPUT_DIR (line 30), modelled as a fixed directory string. -/
def outputDir : String := "output/music"

/-- Path join OUTPUT_DIR / name. -/
def joinPath (d f : String) : String := d ++ "/" ++ f

/-- _download_audio, lines 166-223: missing or empty audio_url is fatal
before any download; the audio requests.get and its raise_for_status are
uncaught (requests library exceptions propagate); the cover download runs
only when image_url is truthy and any failure of it is caught, leaving
cover_path = None (the model folds the file write into the fetch). -/
def downloadAudio (clip : Clip) (filename : String) (audio cover : Fetch) :
    Except PyError GenResult :=
  if pyTruthy clip.audio_url then
    match audio with
    | .transportError => .error .requestsLib
    | .response st _content =>
      if 400 ≤ st ∧ st < 600 then .error .requestsLib
      else
        let coverPath : Option String :=
          if pyTruthy clip.image_url then
            match cover with
            | .transportError => none
            | .response cst _cc =>
              if 400 ≤ cst ∧ cst < 600 then none
              else some (joinPath outputDir (coverFilenameOf filename))
          else none
        .ok { audio_path := joinPath outputDir filename
              cover_path := coverPath
              title := clip.title
              tags := clip.tags
              duration := clip.duration
              clip_id := clip.clip_id }
  else .error (.sunoError (.noAudioUrl clip))

/-! ## generate_music_from_prompt_en (lines 228-260) -/

/-- The facade, lines 249-260: slugify the title into the filename,
submit, poll from elapsed 0, download.  Every fatal poll outcome is the
raised SunoClientError propagating unmodified.  Returns none when the
response trace is exhausted before the poll loop resolves. -/
def generateMusicFromPromptEn (apiKey title : String) (cr : CreateResp)
    (trace : List PollResponse) (maxWait interval : Nat) (audio cover : Fetch) :
    Option (Except PyError GenResult) :=
  let filename := audioFilename title
  match createTaskResult apiKey cr with
  | .error e => some (.error e)
  | .ok taskId =>
    match pollLoop taskId maxWait interval trace 0 with
    | .outOfTrace => none
    | .fatal m _ => some (.error (.sunoError m))
    | .ok clip _ => some (downloadAudio clip filename audio cover)

/-! ## Step lemmas for the polling loop -/

/-- Deadline branch, line 118: with elapsed strictly above max_wait the
loop raises the timeout error before looking at any response. -/
theorem pollLoop_deadline (tid : String) (mw iv t : Nat) (trace : List PollResponse)
    (h : t > mw) : pollLoop tid mw iv trace t = .fatal (.pollTimeout mw tid) t := by
  rw [pollLoop.eq_def]
  simp [h]

/-- Lines 124-129: a transport error is swallowed; sleep interval, loop. -/
theorem pollLoop_transport (tid : String) (mw iv t rtt : Nat) (rest : List PollResponse)
    (h : ¬ t > mw) :
    pollLoop tid mw iv (.transportError rtt :: rest) t =
      pollLoop tid mw iv rest (t + rtt + iv) := by
  conv_lhs => rw [pollLoop.eq_def]
  simp [h]

/-- Lines 133-136: HTTP 202 keeps polling; sleep interval, loop. -/
theorem pollLoop_202 (tid : String) (mw iv t rtt : Nat) (txt : String)
    (b : Option TaskJson) (rest : List PollResponse) (h : ¬ t > mw) :
    pollLoop tid mw iv (.http 202 txt b rtt :: rest) t =
      pollLoop tid mw iv rest (t + rtt + iv) := by
  conv_lhs => rw [pollLoop.eq_def]
  simp [h]

/-- Lines 138-139: any other non-200 status is fatal with status and body. -/
theorem pollLoop_badStatus (tid : String) (mw iv t rtt st : Nat) (txt : String)
    (b : Option TaskJson) (rest : List PollResponse) (h : ¬ t > mw)
    (h2 : st ≠ 202) (h3 : st ≠ 200) :
    pollLoop tid mw iv (.http st txt b rtt :: rest) t =
      .fatal (.pollHttpError st txt) (t + rtt) := by
  conv_lhs => rw [pollLoop.eq_def]
  simp [h, h2, h3]

/-- Lines 141-144: a 200 body that does not parse as JSON is fatal. -/
theorem pollLoop_nonJson (tid : String) (mw iv t rtt : Nat) (txt : String)
    (rest : List PollResponse) (h : ¬ t > mw) :
    pollLoop tid mw iv (.http 200 txt none rtt :: rest) t =
      .fatal (.pollNonJson txt) (t + rtt) := by
  conv_lhs => rw [pollLoop.eq_def]
  simp [h]

/-- Lines 150-159: a 200 body with code 200 and non-empty data list is
decided by the state of its first clip. -/
theorem pollLoop_ready (tid : String) (mw iv t rtt : Nat) (txt : String)
    (j : TaskJson) (clip : Clip) (cs : List Clip) (rest : List PollResponse)
    (h : ¬ t > mw) (hc : j.code = some 200) (hd : j.data = some (clip :: cs)) :
    pollLoop tid mw iv (.http 200 txt (some j) rtt :: rest) t =
      (if clip.state = some "succeeded" then .ok clip (t + rtt)
       else if clip.state = some "failed" then .fatal (.jobFailed clip) (t + rtt)
       else pollLoop tid mw iv rest (t + rtt + iv)) := by
  obtain ⟨jc, jd⟩ := j
  simp only [TaskJson.code] at hc
  simp only [TaskJson.data] at hd
  subst hc
  subst hd
  conv_lhs => rw [pollLoop.eq_def]
  simp [h]

/-- Lines 160-163: a 200 body lacking code 200 or whose data list is
absent or empty keeps polling. -/
theorem pollLoop_notReady (tid : String) (mw iv t rtt : Nat) (txt : String)
    (j : TaskJson) (rest : List PollResponse) (h : ¬ t > mw)
    (hn : j.code ≠ some 200 ∨ j.data = none ∨ j.data = some []) :
    pollLoop tid mw iv (.http 200 txt (some j) rtt :: rest) t =
      pollLoop tid mw iv rest (t + rtt + iv) := by
  obtain ⟨jc, jd⟩ := j
  simp only at hn
  conv_lhs => rw [pollLoop.eq_def]
  simp [h]
  split
  next clip cs =>
    rcases hn with hc | hd | hd
    · simp_all
    · simp_all
    · simp_all
  next => rfl

/-- Exhaustive shape of one loop iteration under the deadline: it either
recurses after one interval of sleep, returns a clip, or raises a fatal
error that is not the timeout. -/
theorem pollLoop_cons_elim (tid : String) (mw iv t : Nat) (r : PollResponse)
    (rs : List PollResponse) (h : ¬ t > mw) :
    (∃ rtt, pollLoop tid mw iv (r :: rs) t = pollLoop tid mw iv rs (t + rtt + iv)) ∨
    (∃ c e, pollLoop tid mw iv (r :: rs) t = .ok c e) ∨
    (∃ m e, pollLoop tid mw iv (r :: rs) t = .fatal m e ∧
      ∀ w s, m ≠ .pollTimeout w s) := by
  cases r with
  | transportError rtt =>
    exact .inl ⟨rtt, pollLoop_transport tid mw iv t rtt rs h⟩
  | http st txt b rtt =>
    rcases eq_or_ne st 202 with rfl | h202
    · exact .inl ⟨rtt, pollLoop_202 tid mw iv t rtt txt b rs h⟩
    · rcases eq_or_ne st 200 with rfl | h200
      · cases b with
        | none =>
          refine .inr (.inr ⟨_, _, pollLoop_nonJson tid mw iv t rtt txt rs h, ?_⟩)
          intro w s hcon
          exact SunoMsg.noConfusion hcon
        | some j =>
          by_cases hready : j.code = some 200 ∧ ∃ clip cs, j.data = some (clip :: cs)
          · obtain ⟨hc, clip, cs, hd⟩ := hready
            rw [pollLoop_ready tid mw iv t rtt txt j clip cs rs h hc hd]
            by_cases hs1 : clip.state = some "succeeded"
            · rw [if_pos hs1]
              exact .inr (.inl ⟨_, _, rfl⟩)
            · rw [if_neg hs1]
              by_cases hs2 : clip.state = some "failed"
              · rw [if_pos hs2]
                refine .inr (.inr ⟨_, _, rfl, ?_⟩)
                intro w s hcon
                exact SunoMsg.noConfusion hcon
              · rw [if_neg hs2]
                exact .inl ⟨rtt, rfl⟩
          · have hn : j.code ≠ some 200 ∨ j.data = none ∨ j.data = some [] := by
              by_cases hc : j.code = some 200
              · right
                cases hdata : j.data with
                | none => exact .inl rfl
                | some l =>
                  cases l with
                  | nil => exact .inr rfl
                  | cons a as => exact absurd ⟨hc, a, as, hdata⟩ hready
              · exact .inl hc
            exact .inl ⟨rtt, pollLoop_notReady tid mw iv t rtt txt j rs h hn⟩
      · refine .inr (.inr ⟨_, _, pollLoop_badStatus tid mw iv t rtt st txt b rs h h202 h200, ?_⟩)
        intro w s hcon
        exact SunoMsg.noConfusion hcon

/-! ## Claim theorems -/

/-- C1: within one iteration of the polling loop that passed the deadline
check, HTTP 202 sleeps one interval and loops; any other non-200 status
raises the fatal service error with status and body; a 200 body with top
level code 200 and a non-empty result list is decided by the first clip:
state succeeded returns that clip, state failed raises the fatal job
failure carrying the clip, any other or absent state keeps polling; a 200
body lacking code 200 or with an absent or empty result list also keeps
polling. -/
theorem C1_poll_response_dispatch (tid : String) (mw iv t : Nat) (h : ¬ t > mw) :
    (∀ (txt : String) (b : Option TaskJson) (rtt : Nat) (rest : List PollResponse),
        pollLoop tid mw iv (.http 202 txt b rtt :: rest) t =
          pollLoop tid mw iv rest (t + rtt + iv))
  ∧ (∀ (st : Nat) (txt : String) (b : Option TaskJson) (rtt : Nat)
        (rest : List PollResponse), st ≠ 202 → st ≠ 200 →
        pollLoop tid mw iv (.http st txt b rtt :: rest) t =
          .fatal (.pollHttpError st txt) (t + rtt))
  ∧ (∀ (txt : String) (j : TaskJson) (clip : Clip) (cs : List Clip) (rtt : Nat)
        (rest : List PollResponse), j.code = some 200 → j.data = some (clip :: cs) →
        (clip.state = some "succeeded" →
          pollLoop tid mw iv (.http 200 txt (some j) rtt :: rest) t = .ok clip (t + rtt))
      ∧ (clip.state = some "failed" →
          pollLoop tid mw iv (.http 200 txt (some j) rtt :: rest) t =
            .fatal (.jobFailed clip) (t + rtt))
      ∧ (clip.state ≠ some "succeeded" → clip.state ≠ some "failed" →
          pollLoop tid mw iv (.http 200 txt (some j) rtt :: rest) t =
            pollLoop tid mw iv rest (t + rtt + iv)))
  ∧ (∀ (txt : String) (j : TaskJson) (rtt : Nat) (rest : List PollResponse),
        j.code ≠ some 200 ∨ j.data = none ∨ j.data = some [] →
        pollLoop tid mw iv (.http 200 txt (some j) rtt :: rest) t =
          pollLoop tid mw iv rest (t + rtt + iv)) := by
  refine ⟨?_, ?_, ?_, ?_⟩
  · intro txt b rtt rest
    exact pollLoop_202 tid mw iv t rtt txt b rest h
  · intro st txt b rtt rest h2 h3
    exact pollLoop_badStatus tid mw iv t rtt st txt b rest h h2 h3
  · intro txt j clip cs rtt rest hc hd
    refine ⟨?_, ?_, ?_⟩
    · intro hs
      rw [pollLoop_ready tid mw iv t rtt txt j clip cs rest h hc hd, if_pos hs]
    · intro hs
      rw [pollLoop_ready tid mw iv t rtt txt j clip cs rest h hc hd, if_neg, if_pos hs]
      rw [hs]
      simp
    · intro h1 h2
      rw [pollLoop_ready tid mw iv t rtt txt j clip cs rest h hc hd, if_neg h1, if_neg h2]
  · intro txt j rtt rest hn
    exact pollLoop_notReady tid mw iv t rtt txt j rest h hn

/-- C1 witness: a concrete succeeded response is returned as the clip. -/
theorem C1_poll_response_dispatch_witness :
    pollLoop "tid" 360 15
      [.http 200 "" (some ⟨some 200,
        some [⟨some "succeeded", some "u", none, none, none, none, none⟩]⟩) 3] 0 =
      .ok ⟨some "succeeded", some "u", none, none, none, none, none⟩ 3 := by
  have h := (C1_poll_response_dispatch "tid" 360 15 0 (by decide)).2.2.1
    "" ⟨some 200, some [⟨some "succeeded", some "u", none, none, none, none, none⟩]⟩
    ⟨some "succeeded", some "u", none, none, none, none, none⟩ [] 3 [] rfl rfl
  exact h.1 rfl

/-- C3: a connection-level transport failure during a poll iteration is
swallowed: the loop sleeps one interval and retries, and a trace of only
transport failures can only end in exhaustion or the deadline timeout,
never any other outcome; by contrast a 200 response whose body fails to
parse is fatal, and a transport failure during submission is fatal and
not retried. -/
theorem C3_transport_asymmetry :
    (∀ (tid : String) (mw iv t rtt : Nat) (rest : List PollResponse), ¬ t > mw →
        pollLoop tid mw iv (.transportError rtt :: rest) t =
          pollLoop tid mw iv rest (t + rtt + iv))
  ∧ (∀ (tid : String) (mw iv t : Nat) (trace : List PollResponse),
        (∀ r ∈ trace, ∃ rtt, r = .transportError rtt) →
        pollLoop tid mw iv trace t = .outOfTrace ∨
          ∃ e, pollLoop tid mw iv trace t = .fatal (.pollTimeout mw tid) e)
  ∧ (∀ (tid : String) (mw iv t rtt : Nat) (txt : String) (rest : List PollResponse),
        ¬ t > mw →
        pollLoop tid mw iv (.http 200 txt none rtt :: rest) t =
          .fatal (.pollNonJson txt) (t + rtt))
  ∧ (∀ key : String, key ≠ "" →
        createTaskResult key .transportError = .error .requestsLib) := by
  refine ⟨?_, ?_, ?_, ?_⟩
  · intro tid mw iv t rtt rest h
    exact pollLoop_transport tid mw iv t rtt rest h
  · intro tid mw iv t trace
    induction trace generalizing t with
    | nil =>
      intro _
      by_cases h : t > mw
      · exact .inr ⟨t, pollLoop_deadline tid mw iv t [] h⟩
      · left
        rw [pollLoop.eq_def]
        simp [h]
    | cons r rs ih =>
      intro hall
      by_cases h : t > mw
      · exact .inr ⟨t, pollLoop_deadline tid mw iv t (r :: rs) h⟩
      · obtain ⟨rtt, rfl⟩ := hall r (List.mem_cons_self r rs)
        rw [pollLoop_transport tid mw iv t rtt rs h]
        exact ih _ (fun x hx => hall x (List.mem_cons_of_mem _ hx))
  · intro tid mw iv t rtt txt rest h
    exact pollLoop_nonJson tid mw iv t rtt txt rest h
  · intro key hk
    simp [createTaskResult, hk]

/-- C3 witness: a concrete mid-poll transport failure only advances the
clock by one round trip plus one interval. -/
theorem C3_transport_asymmetry_witness :
    pollLoop "t" 360 15 [.transportError 1] 0 = pollLoop "t" 360 15 [] 16 :=
  C3_transport_asymmetry.1 "t" 360 15 0 1 [] (by decide)

/-- A 202 response whose round trip lasts at most R seconds. -/
def Is202 (R : Nat) (r : PollResponse) : Prop :=
  ∃ txt b rtt, rtt ≤ R ∧ r = .http 202 txt b rtt

/-- C2: the polling loop always terminates (with a positive interval it
never exhausts a trace of at least enough responses: the outcome is a
clip, a fatal error or the timeout); the deadline check happens before
the status query, so elapsed above max_wait raises the timeout without
consuming any response; on an all-202 trace with round trips at most R
the loop ends in the timeout at an elapsed time strictly above max_wait
and at most max_wait + interval + R; in particular with max_wait = 30,
interval = 15 and instantaneous 202 responses the timeout fires at
elapsed 45. -/
theorem C2_poll_terminates_and_deadline_bound :
    (∀ (tid : String) (mw iv : Nat) (trace : List PollResponse) (t : Nat),
        1 ≤ iv → mw < t + iv * trace.length →
        pollLoop tid mw iv trace t ≠ .outOfTrace)
  ∧ (∀ (tid : String) (mw iv t : Nat) (trace : List PollResponse), t > mw →
        pollLoop tid mw iv trace t = .fatal (.pollTimeout mw tid) t)
  ∧ (∀ (tid : String) (mw iv R : Nat) (trace : List PollResponse) (t : Nat),
        t ≤ mw + iv + R → (∀ r ∈ trace, Is202 R r) →
        pollLoop tid mw iv trace t = .outOfTrace ∨
          ∃ e, pollLoop tid mw iv trace t = .fatal (.pollTimeout mw tid) e ∧
            mw < e ∧ e ≤ mw + iv + R)
  ∧ pollLoop "job" 30 15 [.http 202 "" none 0, .http 202 "" none 0,
      .http 202 "" none 0, .http 202 "" none 0] 0 =
      .fatal (.pollTimeout 30 "job") 45 := by
  refine ⟨?_, ?_, ?_, by decide⟩
  · intro tid mw iv trace
    induction trace with
    | nil =>
      intro t hiv hlt
      have ht : t > mw := by simpa using hlt
      rw [pollLoop_deadline tid mw iv t [] ht]
      simp
    | cons r rs ih =>
      intro t hiv hlt
      by_cases h : t > mw
      · rw [pollLoop_deadline tid mw iv t (r :: rs) h]
        simp
      · rcases pollLoop_cons_elim tid mw iv t r rs h with
          ⟨rtt, heq⟩ | ⟨c, e, heq⟩ | ⟨m, e, heq, _⟩
        · rw [heq]
          apply ih
          · exact hiv
          · rw [List.length_cons, Nat.mul_succ] at hlt
            omega
        · rw [heq]
          simp
        · rw [heq]
          simp
  · intro tid mw iv t trace ht
    exact pollLoop_deadline tid mw iv t trace ht
  · intro tid mw iv R trace
    induction trace with
    | nil =>
      intro t hle hall
      by_cases h : t > mw
      · exact .inr ⟨t, pollLoop_deadline tid mw iv t [] h, h, hle⟩
      · left
        rw [pollLoop.eq_def]
        simp [h]
    | cons r rs ih =>
      intro t hle hall
      by_cases h : t > mw
      · exact .inr ⟨t, pollLoop_deadline tid mw iv t (r :: rs) h, h, hle⟩
      · obtain ⟨txt, b, rtt, hrtt, rfl⟩ := hall r (List.mem_cons_self r rs)
        rw [pollLoop_202 tid mw iv t rtt txt b rs h]
        apply ih
        · push_neg at h
          omega
        · intro x hx
          exact hall x (List.mem_cons_of_mem _ hx)

/-- C2 witness: with interval 15 a trace of four 202 answers cannot be
exhausted under a 30 second deadline. -/
theorem C2_poll_terminates_witness :
    pollLoop "job" 15 15 [.http 202 "" none 0, .http 202 "" none 0] 0 ≠ .outOfTrace :=
  C2_poll_terminates_and_deadline_bound.1 "job" 15 15
    [.http 202 "" none 0, .http 202 "" none 0] 0 (by decide) (by decide)

/-- C8 counterexample: two all-pending runs whose timeouts fire at
different elapsed times (45 and 32 seconds) raise errors with identical
message contents, so the raised error cannot carry the elapsed time; it
carries max_wait and the task id only. -/
theorem C8_counterexample :
    pollLoop "abc" 30 15 [.http 202 "" none 0, .http 202 "" none 0,
        .http 202 "" none 0, .http 202 "" none 0] 0 =
      .fatal (.pollTimeout 30 "abc") 45
  ∧ pollLoop "abc" 30 15 [.http 202 "" none 1, .http 202 "" none 1,
        .http 202 "" none 1] 0 =
      .fatal (.pollTimeout 30 "abc") 32
  ∧ (45 : Nat) ≠ 32 := by
  decide

/-- C8 amended: every timeout error the polling loop raises carries the
job handle and the configured max_wait (and these exactly determine its
message), and it is raised at a moment whose elapsed time is strictly
above max_wait; the elapsed time itself is not part of the error. -/
theorem C8_timeout_payload (tid : String) (mw iv : Nat) (trace : List PollResponse)
    (t w e : Nat) (s : String)
    (hres : pollLoop tid mw iv trace t = .fatal (.pollTimeout w s) e) :
    w = mw ∧ s = tid ∧ mw < e := by
  revert hres
  induction trace generalizing t with
  | nil =>
    intro hres
    by_cases h : t > mw
    · rw [pollLoop_deadline tid mw iv t [] h] at hres
      simp only [PollResult.fatal.injEq, SunoMsg.pollTimeout.injEq] at hres
      obtain ⟨⟨hw, hs⟩, he⟩ := hres
      exact ⟨hw.symm, hs.symm, by omega⟩
    · rw [pollLoop.eq_def] at hres
      simp [h] at hres
  | cons r rs ih =>
    intro hres
    by_cases h : t > mw
    · rw [pollLoop_deadline tid mw iv t (r :: rs) h] at hres
      simp only [PollResult.fatal.injEq, SunoMsg.pollTimeout.injEq] at hres
      obtain ⟨⟨hw, hs⟩, he⟩ := hres
      exact ⟨hw.symm, hs.symm, by omega⟩
    · rcases pollLoop_cons_elim tid mw iv t r rs h with
        ⟨rtt, heq⟩ | ⟨c, e2, heq⟩ | ⟨m, e2, heq, hm⟩
      · rw [heq] at hres
        exact ih _ hres
      · rw [heq] at hres
        exact absurd hres (by simp)
      · rw [heq] at hres
        simp only [PollResult.fatal.injEq] at hres
        exact absurd hres.1 (hm w s)

/-- C8 amended witness: the concrete timeout at elapsed 45 carries
max_wait 30 and the handle abc. -/
theorem C8_timeout_payload_witness : (30 : Nat) = 30 ∧ "abc" = "abc" ∧ (30 : Nat) < 45 :=
  C8_timeout_payload "abc" 30 15 [.http 202 "" none 0, .http 202 "" none 0,
    .http 202 "" none 0, .http 202 "" none 0] 0 30 45 "abc" (by decide)

/-! ## Lemmas on submission, download and the facade -/

/-- Line 39-43: with an empty API key every submission fails before any
request with the missing-credential SunoClientError. -/
theorem createTaskResult_noKey (r : CreateResp) :
    createTaskResult "" r = .error (.sunoError .noApiKey) := by
  simp [createTaskResult]

/-- Line 88: a connection-level exception of requests.post is uncaught. -/
theorem createTaskResult_transport (key : String) (hk : key ≠ "") :
    createTaskResult key .transportError = .error .requestsLib := by
  simp [createTaskResult, hk]

/-- Line 90: raise_for_status on a 4xx or 5xx submission response raises
the requests HTTPError, uncaught. -/
theorem createTaskResult_httpError (key : String) (st : Nat) (txt : String)
    (b : Option CreateBody) (hk : key ≠ "") (h1 : 400 ≤ st) (h2 : st < 600) :
    createTaskResult key (.response st txt b) = .error .requestsLib := by
  have hst : 400 ≤ st ∧ st < 600 := ⟨h1, h2⟩
  simp [createTaskResult, hk, hst]

/-- Lines 93-94: a well-formed body whose message is not the success
marker or which lacks task_id is rejected with SunoClientError. -/
theorem createTaskResult_rejected (key : String) (st : Nat) (txt : String)
    (d : CreateBody) (hk : key ≠ "") (hst : ¬ (400 ≤ st ∧ st < 600))
    (hbad : d.message ≠ some "success" ∨ d.task_id = none) :
    createTaskResult key (.response st txt (some d)) =
      .error (.sunoError (.createFailed d)) := by
  rcases hbad with hmsg | htid
  · cases htid2 : d.task_id with
    | none => simp [createTaskResult, hk, hst, htid2]
    | some a => simp [createTaskResult, hk, hst, htid2, hmsg]
  · simp [createTaskResult, hk, hst, htid]

/-- Lines 88-98: a handle is produced from a parsed body exactly when
raise_for_status does not raise and the body passes both checks, and the
handle is the task_id value of the body. -/
theorem createTaskResult_ok_iff (key : String) (st : Nat) (txt : String)
    (d : CreateBody) (tid : String) (hk : key ≠ "") :
    createTaskResult key (.response st txt (some d)) = .ok tid ↔
      (¬ (400 ≤ st ∧ st < 600) ∧ d.message = some "success" ∧
        d.task_id = some tid) := by
  by_cases hst : 400 ≤ st ∧ st < 600
  · simp [createTaskResult, hk, hst]
  · cases htid : d.task_id with
    | none => simp [createTaskResult, hk, hst, htid]
    | some a =>
      by_cases hmsg : d.message = some "success"
      · simp [createTaskResult, hk, hst, htid, hmsg]
      · simp [createTaskResult, hk, hst, htid, hmsg]

/-- Whenever submission produces a handle, the response was an HTTP
response with a parsed body whose task_id is exactly the handle. -/
theorem createTaskResult_ok_shape (key : String) (r : CreateResp) (tid : String)
    (hok : createTaskResult key r = .ok tid) :
    ∃ st t2 d2, r = .response st t2 (some d2) ∧ d2.task_id = some tid := by
  by_cases hk : key = ""
  · subst hk
    rw [createTaskResult_noKey r] at hok
    exact absurd hok (by simp)
  · cases r with
    | transportError =>
      rw [createTaskResult_transport key hk] at hok
      exact absurd hok (by simp)
    | response st t2 b =>
      cases b with
      | none =>
        by_cases hst : 400 ≤ st ∧ st < 600
        · rw [createTaskResult_httpError key st t2 none hk hst.1 hst.2] at hok
          exact absurd hok (by simp)
        · simp [createTaskResult, hk, hst] at hok
      | some d2 =>
        refine ⟨st, t2, d2, rfl, ?_⟩
        by_cases hst : 400 ≤ st ∧ st < 600
        · rw [createTaskResult_httpError key st t2 (some d2) hk hst.1 hst.2] at hok
          exact absurd hok (by simp)
        · exact ((createTaskResult_ok_iff key st t2 d2 tid hk).mp hok).2.2

/-- Lines 172-174: an absent or empty audio_url is fatal before any
download, independently of both fetches. -/
theorem downloadAudio_missing (clip : Clip) (f : String) (a c : Fetch)
    (hf : pyTruthy clip.audio_url = false) :
    downloadAudio clip f a c = .error (.sunoError (.noAudioUrl clip)) := by
  unfold downloadAudio
  rw [if_neg (by simp [hf])]

/-- Line 179: a connection-level exception of the audio requests.get is
uncaught. -/
theorem downloadAudio_transport (clip : Clip) (f : String) (c : Fetch)
    (ha : pyTruthy clip.audio_url = true) :
    downloadAudio clip f .transportError c = .error .requestsLib := by
  unfold downloadAudio
  rw [if_pos ha]

/-- Line 180: raise_for_status on a 4xx or 5xx audio response raises the
requests HTTPError, uncaught. -/
theorem downloadAudio_httpError (clip : Clip) (f : String) (st : Nat) (cc : String)
    (c : Fetch) (ha : pyTruthy clip.audio_url = true) (h1 : 400 ≤ st) (h2 : st < 600) :
    downloadAudio clip f (.response st cc) c = .error .requestsLib := by
  unfold downloadAudio
  rw [if_pos ha]
  simp [h1, h2]

/-- Lines 186-223: with a good audio response and a cover download that
raises (connection error or error status) or no image reference at all,
the call succeeds and the cover field is exactly none. -/
theorem downloadAudio_ok_coverNone (clip : Clip) (fname : String) (st : Nat)
    (content : String) (cover : Fetch) (ha : pyTruthy clip.audio_url = true)
    (hst : ¬ (400 ≤ st ∧ st < 600))
    (hcover : cover = .transportError ∨
        (∃ cst cc, cover = .response cst cc ∧ 400 ≤ cst ∧ cst < 600) ∨
        pyTruthy clip.image_url = false) :
    downloadAudio clip fname (.response st content) cover =
      .ok { audio_path := joinPath outputDir fname, cover_path := none,
            title := clip.title, tags := clip.tags, duration := clip.duration,
            clip_id := clip.clip_id } := by
  unfold downloadAudio
  rw [if_pos ha]
  rcases hcover with rfl | ⟨cst, cc, rfl, h1, h2⟩ | himg
  · simp [hst]
  · simp [hst, h1, h2]
  · simp [hst, himg]

/-- The facade forwards every fatal poll outcome unmodified as the raised
SunoClientError. -/
theorem facade_poll_fatal (key title : String) (cr : CreateResp) (tid : String)
    (trace : List PollResponse) (mw iv : Nat) (audio cover : Fetch)
    (m : SunoMsg) (e : Nat) (hcr : createTaskResult key cr = .ok tid)
    (hpoll : pollLoop tid mw iv trace 0 = .fatal m e) :
    generateMusicFromPromptEn key title cr trace mw iv audio cover =
      some (.error (.sunoError m)) := by
  simp [generateMusicFromPromptEn, hcr, hpoll]

/-- The facade hands a returned clip to the artifact retriever with the
filename derived from the title. -/
theorem facade_poll_ok (key title : String) (cr : CreateResp) (tid : String)
    (trace : List PollResponse) (mw iv : Nat) (audio cover : Fetch)
    (clip : Clip) (e : Nat) (hcr : createTaskResult key cr = .ok tid)
    (hpoll : pollLoop tid mw iv trace 0 = .ok clip e) :
    generateMusicFromPromptEn key title cr trace mw iv audio cover =
      some (downloadAudio clip (audioFilename title) audio cover) := by
  simp [generateMusicFromPromptEn, hcr, hpoll]

/-- C4 counterexample: a 304 response (not 2xx) with acknowledgment
success and a task_id still yields the handle, because raise_for_status
only raises for statuses in the 400-599 range; so a handle does not
require a 2xx transport status. -/
theorem C4_counterexample :
    createTaskResult "k" (.response 304 "" (some ⟨some "success", some "abc"⟩)) =
      .ok "abc"
  ∧ ¬ (200 ≤ 304 ∧ 304 < 300) :=
  ⟨rfl, by decide⟩

/-- C4 amended: submission returns a handle iff the status is outside the
400-599 error range raise_for_status raises on, the body parses, its
acknowledgment equals the success marker and task_id is present; the
handle is exactly the task_id value; a well-formed body failing either
body condition at a non-error status raises the rejection error. -/
theorem C4_submission_handle_iff (key : String) (hk : key ≠ "") (status : Nat)
    (txt : String) (d : CreateBody) :
    (∀ tid, createTaskResult key (.response status txt (some d)) = .ok tid ↔
      (¬ (400 ≤ status ∧ status < 600) ∧ d.message = some "success" ∧
        d.task_id = some tid))
  ∧ (¬ (400 ≤ status ∧ status < 600) →
      (d.message ≠ some "success" ∨ d.task_id = none) →
      createTaskResult key (.response status txt (some d)) =
        .error (.sunoError (.createFailed d)))
  ∧ (∀ (r : CreateResp) (tid : String), createTaskResult key r = .ok tid →
      ∃ st t2 d2, r = .response st t2 (some d2) ∧ d2.task_id = some tid) := by
  refine ⟨?_, ?_, ?_⟩
  · intro tid
    exact createTaskResult_ok_iff key status txt d tid hk
  · intro hst hbad
    exact createTaskResult_rejected key status txt d hk hst hbad
  · intro r tid hok
    exact createTaskResult_ok_shape key r tid hok

/-- C4 witness: a 200 response with success acknowledgment and task_id
abc yields the handle abc. -/
theorem C4_submission_handle_iff_witness :
    createTaskResult "k" (.response 200 "" (some ⟨some "success", some "abc"⟩)) =
      .ok "abc" :=
  ((C4_submission_handle_iff "k" (by decide) 200 ""
    ⟨some "success", some "abc"⟩).1 "abc").mpr ⟨by decide, rfl, rfl⟩

/-- C6 counterexample: a cover response with the non-2xx status 304 does
not make the cover field none: raise_for_status does not raise on 304,
so the cover file is written and its path returned. -/
theorem C6_counterexample :
    downloadAudio ⟨some "succeeded", some "http://x/a.mp3", some "http://x/c.jpg",
        none, none, none, none⟩ "t.mp3" (.response 200 "audio") (.response 304 "img") =
      .ok { audio_path := "output/music/t.mp3",
            cover_path := some "output/music/t_cover.jpg",
            title := none, tags := none, duration := none, clip_id := none }
  ∧ ¬ (200 ≤ 304 ∧ 304 < 300)
  ∧ some "output/music/t_cover.jpg" ≠ (none : Option String) :=
  ⟨rfl, by decide, by decide⟩

/-- C6 amended: for a succeeded clip with an audio reference and a good
audio response, a cover download that raises (connection failure, or a
4xx or 5xx status, the ones raise_for_status raises on) never fails the
call: it returns with the audio path set and cover exactly none, and
likewise when no image reference is present. -/
theorem C6_cover_failure_nonfatal (clip : Clip) (fname : String) (st : Nat)
    (content : String) (cover : Fetch) (_hstate : clip.state = some "succeeded")
    (ha : pyTruthy clip.audio_url = true) (hst : ¬ (400 ≤ st ∧ st < 600))
    (hcover : cover = .transportError ∨
        (∃ cst cc, cover = .response cst cc ∧ 400 ≤ cst ∧ cst < 600) ∨
        pyTruthy clip.image_url = false) :
    downloadAudio clip fname (.response st content) cover =
      .ok { audio_path := joinPath outputDir fname, cover_path := none,
            title := clip.title, tags := clip.tags, duration := clip.duration,
            clip_id := clip.clip_id } :=
  downloadAudio_ok_coverNone clip fname st content cover ha hst hcover

/-- C6 witness: an unreachable cover host leaves cover none and the call
succeeds. -/
theorem C6_cover_failure_nonfatal_witness :
    downloadAudio ⟨some "succeeded", some "u", some "i", none, none, none, none⟩
      "t.mp3" (.response 200 "a") .transportError =
      .ok { audio_path := joinPath outputDir "t.mp3", cover_path := none,
            title := none, tags := none, duration := none, clip_id := none } :=
  C6_cover_failure_nonfatal ⟨some "succeeded", some "u", some "i", none, none,
    none, none⟩ "t.mp3" 200 "a" .transportError rfl rfl (by decide) (.inl rfl)

/-- C7: the artifact retriever raises the missing-artifact error exactly
when the clip has no usable audio reference (audio_url absent or empty);
in that case the outcome is independent of both downloads (none is
attempted), and the whole facade call fails with that error unmodified. -/
theorem C7_missing_artifact (clip : Clip) (fname : String) :
    (∀ audio cover, downloadAudio clip fname audio cover =
        .error (.sunoError (.noAudioUrl clip)) ↔ pyTruthy clip.audio_url = false)
  ∧ (pyTruthy clip.audio_url = false →
      ∀ a1 c1 a2 c2, downloadAudio clip fname a1 c1 = downloadAudio clip fname a2 c2)
  ∧ (∀ (key title : String) (cr : CreateResp) (tid : String)
        (trace : List PollResponse) (mw iv e : Nat) (audio cover : Fetch),
      createTaskResult key cr = .ok tid →
      pollLoop tid mw iv trace 0 = .ok clip e →
      pyTruthy clip.audio_url = false →
      generateMusicFromPromptEn key title cr trace mw iv audio cover =
        some (.error (.sunoError (.noAudioUrl clip)))) := by
  refine ⟨?_, ?_, ?_⟩
  · intro audio cover
    constructor
    · intro heq
      cases hx : pyTruthy clip.audio_url
      · rfl
      · exfalso
        unfold downloadAudio at heq
        rw [if_pos hx] at heq
        cases audio with
        | transportError => simp at heq
        | response st c =>
          by_cases hst : 400 ≤ st ∧ st < 600
          · simp [hst] at heq
          · simp [hst] at heq
    · intro hf
      exact downloadAudio_missing clip fname audio cover hf
  · intro hf a1 c1 a2 c2
    rw [downloadAudio_missing clip fname a1 c1 hf,
      downloadAudio_missing clip fname a2 c2 hf]
  · intro key title cr tid trace mw iv e audio cover hcr hpoll hf
    rw [facade_poll_ok key title cr tid trace mw iv audio cover clip e hcr hpoll,
      downloadAudio_missing clip (audioFilename title) audio cover hf]

/-- C7 witness: a clip without audio_url fails with the missing-artifact
error whatever the downloads would answer. -/
theorem C7_missing_artifact_witness :
    downloadAudio ⟨some "succeeded", none, none, none, none, none, none⟩ "t.mp3"
      .transportError .transportError =
      .error (.sunoError (.noAudioUrl
        ⟨some "succeeded", none, none, none, none, none, none⟩)) :=
  ((C7_missing_artifact ⟨some "succeeded", none, none, none, none, none, none⟩
    "t.mp3").1 .transportError .transportError).mpr rfl

/-- C9 counterexample: a non-2xx audio response is not always a failure
that propagates as a library exception: on a 304 audio response
raise_for_status raises nothing and the download call succeeds, so no
exception of any kind propagates there. -/
theorem C9_counterexample :
    downloadAudio ⟨some "succeeded", some "http://x/a.mp3", none,
        none, none, none, none⟩ "t.mp3" (.response 304 "audio") .transportError =
      .ok { audio_path := "output/music/t.mp3", cover_path := none,
            title := none, tags := none, duration := none, clip_id := none }
  ∧ ¬ (200 ≤ 304 ∧ 304 < 300) :=
  ⟨rfl, by decide⟩

/-- C9 amended: every fatal error the orchestrator itself raises (missing
credential, submission rejection, every fatal poll outcome, missing
audio artifact) is the single SunoClientError type, whose values are
distinguished exactly by their message contents; connection-level
failures and 4xx or 5xx statuses (the ones raise_for_status raises on)
at the submission request and at the audio download are not wrapped and
propagate as requests-library exceptions, a class distinct from
SunoClientError. -/
theorem C9_error_taxonomy :
    (∀ m1 m2 : SunoMsg, PyError.sunoError m1 = PyError.sunoError m2 ↔ m1 = m2)
  ∧ (∀ m : SunoMsg, PyError.sunoError m ≠ .requestsLib)
  ∧ (∀ r : CreateResp, createTaskResult "" r = .error (.sunoError .noApiKey))
  ∧ (∀ (key : String) (st : Nat) (txt : String) (d : CreateBody), key ≠ "" →
      ¬ (400 ≤ st ∧ st < 600) → (d.message ≠ some "success" ∨ d.task_id = none) →
      createTaskResult key (.response st txt (some d)) =
        .error (.sunoError (.createFailed d)))
  ∧ (∀ (key title : String) (cr : CreateResp) (tid : String)
        (trace : List PollResponse) (mw iv : Nat) (audio cover : Fetch)
        (m : SunoMsg) (e : Nat),
      createTaskResult key cr = .ok tid →
      pollLoop tid mw iv trace 0 = .fatal m e →
      generateMusicFromPromptEn key title cr trace mw iv audio cover =
        some (.error (.sunoError m)))
  ∧ (∀ (clip : Clip) (f : String) (a c : Fetch), pyTruthy clip.audio_url = false →
      downloadAudio clip f a c = .error (.sunoError (.noAudioUrl clip)))
  ∧ (∀ key : String, key ≠ "" →
      createTaskResult key .transportError = .error .requestsLib)
  ∧ (∀ (key : String) (st : Nat) (txt : String) (b : Option CreateBody),
      key ≠ "" → 400 ≤ st → st < 600 →
      createTaskResult key (.response st txt b) = .error .requestsLib)
  ∧ (∀ (clip : Clip) (f : String) (c : Fetch), pyTruthy clip.audio_url = true →
      downloadAudio clip f .transportError c = .error .requestsLib)
  ∧ (∀ (clip : Clip) (f : String) (st : Nat) (cc : String) (c : Fetch),
      pyTruthy clip.audio_url = true → 400 ≤ st → st < 600 →
      downloadAudio clip f (.response st cc) c = .error .requestsLib) := by
  refine ⟨?_, ?_, ?_, ?_, ?_, ?_, ?_, ?_, ?_, ?_⟩
  · intro m1 m2
    simp
  · intro m
    simp
  · intro r
    exact createTaskResult_noKey r
  · intro key st txt d hk hst hbad
    exact createTaskResult_rejected key st txt d hk hst hbad
  · intro key title cr tid trace mw iv audio cover m e hcr hpoll
    exact facade_poll_fatal key title cr tid trace mw iv audio cover m e hcr hpoll
  · intro clip f a c hf
    exact downloadAudio_missing clip f a c hf
  · intro key hk
    exact createTaskResult_transport key hk
  · intro key st txt b hk h1 h2
    exact createTaskResult_httpError key st txt b hk h1 h2
  · intro clip f c ha
    exact downloadAudio_transport clip f c ha
  · intro clip f st cc c ha h1 h2
    exact downloadAudio_httpError clip f st cc c ha h1 h2

/-- C9 witness: a submission transport failure with a configured key
propagates as a requests-library exception, not a SunoClientError. -/
theorem C9_error_taxonomy_witness :
    createTaskResult "k" .transportError = .error .requestsLib :=
  C9_error_taxonomy.2.2.2.2.2.2.1 "k" (by decide)

/-- C10: the outbound submission request is a function of the description
text, the instrumental flag, the key and the base URL only: title and
tags never reach the wire, and the payload holds exactly custom_mode
(always false), gpt_description_prompt, make_instrumental and mv. -/
theorem C10_request_independent_of_title_tags :
    (∀ (key base prompt : String) (mk : Bool) (t1 t2 : String)
        (g1 g2 : Option (List String)),
        buildCreateRequest key base prompt t1 g1 mk =
          buildCreateRequest key base prompt t2 g2 mk)
  ∧ (∀ (key base prompt title : String) (tags : Option (List String)) (mk : Bool),
        (buildCreateRequest key base prompt title tags mk).payload =
          { custom_mode := false, gpt_description_prompt := prompt,
            make_instrumental := mk, mv := "chirp-v4" }
      ∧ (buildCreateRequest key base prompt title tags mk).url =
          base ++ "/api/v1/suno/create"
      ∧ (buildCreateRequest key base prompt title tags mk).headers =
          [("Authorization", "Bearer " ++ key), ("Content-Type", "application/json")]) :=
  ⟨fun _ _ _ _ _ _ _ _ => rfl, fun _ _ _ _ _ _ => ⟨rfl, rfl, rfl⟩⟩

/-! ## Lemmas on the slug -/

/-- Every character emitted by the run-collapsing substitution is a kept
character, for any classifier keeping the underscore (kept input
characters pass through, replacements are the underscore). -/
theorem collapseAux_all_keep (keep : Char → Bool) (hu : keep '_' = true)
    (l : List Char) :
    ∀ b, ∀ c ∈ collapseAux keep b l, keep c = true := by
  induction l with
  | nil =>
    intro b c hc
    simp [collapseAux] at hc
  | cons a as ih =>
    intro b c hc
    rw [collapseAux] at hc
    by_cases ha : keep a = true
    · rw [if_pos ha] at hc
      rcases List.mem_cons.mp hc with rfl | hm
      · exact ha
      · exact ih false c hm
    · rw [if_neg ha] at hc
      by_cases hb : b = true
      · rw [if_pos hb] at hc
        exact ih true c hc
      · rw [if_neg hb] at hc
        rcases List.mem_cons.mp hc with rfl | hm
        · exact hu
        · exact ih true c hm

/-- On input of only non-kept characters the substitution emits only
underscores. -/
theorem collapseAux_all_underscore (keep : Char → Bool) (l : List Char)
    (hall : ∀ c ∈ l, keep c = false) :
    ∀ b, ∀ c ∈ collapseAux keep b l, c = '_' := by
  induction l with
  | nil =>
    intro b c hc
    simp [collapseAux] at hc
  | cons a as ih =>
    intro b c hc
    rw [collapseAux] at hc
    have ha : keep a = false := hall a (List.mem_cons_self a as)
    have ih2 := ih (fun x hx => hall x (List.mem_cons_of_mem _ hx))
    rw [if_neg (by simp [ha])] at hc
    by_cases hb : b = true
    · rw [if_pos hb] at hc
      exact ih2 true c hc
    · rw [if_neg hb] at hc
      rcases List.mem_cons.mp hc with rfl | hm
      · rfl
      · exact ih2 true c hm

/-- The head of a dropWhile result fails the predicate. -/
theorem head?_dropWhile_false (p : Char → Bool) (l : List Char) :
    ∀ c, (List.dropWhile p l).head? = some c → p c = false := by
  induction l with
  | nil =>
    intro c hc
    simp at hc
  | cons a as ih =>
    intro c hc
    rw [List.dropWhile_cons] at hc
    by_cases ha : p a = true
    · rw [if_pos ha] at hc
      exact ih c hc
    · rw [if_neg ha] at hc
      simp at hc
      rw [← hc]
      simpa using ha

/-- dropWhile keeps the last element when its result is non-empty. -/
theorem getLast?_dropWhile (p : Char → Bool) (l : List Char)
    (h : List.dropWhile p l ≠ []) :
    (List.dropWhile p l).getLast? = l.getLast? := by
  conv_rhs => rw [← List.takeWhile_append_dropWhile p l]
  rw [List.getLast?_append_of_ne_nil _ h]

/-- Both-ends stripping only keeps characters of the input. -/
theorem mem_pyStripChars (p : Char → Bool) (l : List Char) (c : Char)
    (hc : c ∈ pyStripChars p l) : c ∈ l := by
  unfold pyStripChars at hc
  rw [List.mem_reverse] at hc
  have h1 : c ∈ (List.dropWhile p l).reverse :=
    List.Sublist.mem hc (List.dropWhile_sublist p)
  rw [List.mem_reverse] at h1
  exact List.Sublist.mem h1 (List.dropWhile_sublist p)

/-- The first character of a stripped list fails the predicate. -/
theorem pyStripChars_head (p : Char → Bool) (l : List Char) (c : Char)
    (hc : (pyStripChars p l).head? = some c) : p c = false := by
  unfold pyStripChars at hc
  rw [List.head?_reverse] at hc
  by_cases hnil : List.dropWhile p (List.dropWhile p l).reverse = []
  · rw [hnil] at hc
    simp at hc
  · rw [getLast?_dropWhile p _ hnil, List.getLast?_reverse] at hc
    exact head?_dropWhile_false p l c hc

/-- The last character of a stripped list fails the predicate. -/
theorem pyStripChars_last (p : Char → Bool) (l : List Char) (c : Char)
    (hc : (pyStripChars p l).getLast? = some c) : p c = false := by
  unfold pyStripChars at hc
  rw [List.getLast?_reverse] at hc
  exact head?_dropWhile_false p _ c hc

/-- Stripping a list whose characters all satisfy the predicate yields
the empty list. -/
theorem pyStripChars_nil_of_all (p : Char → Bool) (l : List Char)
    (hall : ∀ c ∈ l, p c = true) : pyStripChars p l = [] := by
  unfold pyStripChars
  rw [List.dropWhile_eq_nil_iff.mpr hall]
  simp

/-- The slug is never the empty string, for any classifiers. -/
theorem slugifyW_ne_empty (w isSpace : Char → Bool) (title : String) :
    slugifyW w isSpace title ≠ "" := by
  simp only [slugifyW]
  split_ifs with h1 h2
  · decide
  · decide
  · intro hc
    apply h2
    have := congrArg String.data hc
    simpa using this

/-- A title of only non-kept characters yields the fixed fallback. -/
theorem slugifyW_fallback (w isSpace : Char → Bool) (title : String)
    (hall : ∀ c ∈ title.toList, keepChar w c = false) :
    slugifyW w isSpace title = "hakimi_track" := by
  simp only [slugifyW]
  split_ifs with h1 h2
  · rfl
  · rfl
  · exfalso
    apply h2
    apply pyStripChars_nil_of_all
    intro c hc
    have hsub : ∀ x ∈ pyStripChars isSpace title.toList,
        keepChar w x = false :=
      fun x hx => hall x (mem_pyStripChars _ _ x hx)
    have hund := collapseAux_all_underscore (keepChar w) _ hsub false c hc
    simp [hund]

/-- Every character of the slug is a kept character, for any classifier
containing the ASCII word characters. -/
theorem slugifyW_chars (w isSpace : Char → Bool)
    (hww : ∀ c, asciiWordChar c = true → w c = true) (title : String) :
    ∀ c ∈ (slugifyW w isSpace title).toList, keepChar w c = true := by
  have hfb : ∀ c ∈ ("hakimi_track" : String).toList, keepChar w c = true := by
    have hall : ∀ c ∈ ("hakimi_track" : String).toList, asciiWordChar c = true := by
      decide
    intro c hc
    simp [keepChar, hww c (hall c hc)]
  simp only [slugifyW]
  split_ifs with h1 h2
  · exact hfb
  · exact hfb
  · intro c hc
    have hu : keepChar w '_' = true := by
      simp [keepChar, hww '_' (by decide)]
    exact collapseAux_all_keep (keepChar w) hu _ false c
      (mem_pyStripChars _ _ c hc)

/-- The slug does not start with an underscore. -/
theorem slugifyW_head_not_underscore (w isSpace : Char → Bool) (title : String) :
    (slugifyW w isSpace title).toList.head? ≠ some '_' := by
  simp only [slugifyW]
  split_ifs with h1 h2
  · decide
  · decide
  · intro hc
    have := pyStripChars_head (fun c => c = '_') _ '_' hc
    simp at this

/-- The slug does not end with an underscore. -/
theorem slugifyW_last_not_underscore (w isSpace : Char → Bool) (title : String) :
    (slugifyW w isSpace title).toList.getLast? ≠ some '_' := by
  simp only [slugifyW]
  split_ifs with h1 h2
  · decide
  · decide
  · intro hc
    have := pyStripChars_last (fun c => c = '_') _ '_' hc
    simp at this

/-- rsplit on the last dot of a name ending in .mp3 recovers the name. -/
theorem rsplitDotHead_mp3 (s : String) :
    rsplitDotHead ((s ++ ".mp3").toList) = s.toList := by
  unfold rsplitDotHead
  have hl : (s ++ ".mp3").toList = s.toList ++ ('.' :: 'm' :: 'p' :: '3' :: []) := by
    rw [show (s ++ ".mp3").toList = (s ++ ".mp3").data from rfl, String.data_append]
    rfl
  rw [hl, List.reverse_append]
  simp [List.dropWhile_cons]

/-- The cover filename of a name ending in .mp3 is that name with the
cover suffix in place of the extension. -/
theorem coverFilenameOf_mp3 (s : String) :
    coverFilenameOf (s ++ ".mp3") = s ++ "_cover.jpg" := by
  unfold coverFilenameOf
  rw [rsplitDotHead_mp3]
  rw [show String.mk s.toList = s from rfl]

/-- C5: for every word-character classifier containing the ASCII word
characters (Python reads \w over the Unicode tables, such a superset)
and every whitespace classifier, filename derivation is deterministic:
identical titles give identical slugs; the slug is never empty, and a
title that is empty or consists only of characters outside the word
class and the hyphen yields the fixed fallback name; every slug
character is a word character or the hyphen and the slug neither starts
nor ends with an underscore; the audio file is the slug with .mp3 and
the cover name derived from it is the slug with the cover suffix. -/
theorem C5_slug_deterministic_safe (w isSpace : Char → Bool)
    (hww : ∀ c, asciiWordChar c = true → w c = true) (title : String) :
    (∀ t2 : String, title = t2 →
        slugifyW w isSpace title = slugifyW w isSpace t2)
  ∧ slugifyW w isSpace title ≠ ""
  ∧ ((∀ c ∈ title.toList, keepChar w c = false) →
        slugifyW w isSpace title = "hakimi_track")
  ∧ (∀ c ∈ (slugifyW w isSpace title).toList, keepChar w c = true)
  ∧ (slugifyW w isSpace title).toList.head? ≠ some '_'
  ∧ (slugifyW w isSpace title).toList.getLast? ≠ some '_'
  ∧ audioFilenameW w isSpace title = slugifyW w isSpace title ++ ".mp3"
  ∧ coverFilenameOf (audioFilenameW w isSpace title) =
      slugifyW w isSpace title ++ "_cover.jpg" :=
  ⟨fun _ h => congrArg (slugifyW w isSpace) h, slugifyW_ne_empty w isSpace title,
    slugifyW_fallback w isSpace title, slugifyW_chars w isSpace hww title,
    slugifyW_head_not_underscore w isSpace title,
    slugifyW_last_not_underscore w isSpace title, rfl,
    coverFilenameOf_mp3 (slugifyW w isSpace title)⟩

/-- C5 witness: with the ASCII instantiation of the classifiers, a title
of only exclamation marks falls back to the fixed name, and the empty
title gives a non-empty slug. -/
theorem C5_slug_deterministic_safe_witness :
    slugifyW asciiWordChar Char.isWhitespace "!!!" = "hakimi_track"
  ∧ slugifyW asciiWordChar Char.isWhitespace "" ≠ "" :=
  ⟨(C5_slug_deterministic_safe asciiWordChar Char.isWhitespace
      (fun _ h => h) "!!!").2.2.1 (by decide),
    (C5_slug_deterministic_safe asciiWordChar Char.isWhitespace
      (fun _ h => h) "").2.1⟩

end SunoClient
